import Mathlib

/-!
Shallow embedding of the shotStopper BLE client (src/ble_client.cpp) and of
the rotary-encoder weight handlers, for checking the specification of the
write-verify protocol, the initial-read retry loop, the task coordinator and
the signed 8-bit target weight.

Transport behaviour (scan outcome, connect outcome, characteristic read and
write outcomes) is supplied by explicit environment records; the BLE client
state (connection flag, characteristic handle, stored device, global target
weight, UI notifications) is threaded explicitly.  Calls into the UI layer
(update_ble_status, update_display_value, show/hide checkmark) are recorded
in the state: update_ble_status sets the status field and logs the call in an
event list (most recent first); the displayed value and the checkmark flag
are plain fields.  The asynchronous onConnect/onDisconnect client callbacks
are modelled as firing synchronously at the transport calls that trigger
them (the code inserts settle delays for exactly this purpose).
-/

namespace ShotStopper

/-- BLE status values reported to the UI via update_ble_status. -/
inductive BleStatus where
  | disconnected
  | connecting
  | connected
  | failed
deriving DecidableEq

/-- A scan result entry: address, signal strength and advertised service
identifiers.  The signal strength is carried only so that the selection
policy's independence from it can be stated. -/
structure BLEAdvertisedDevice where
  addr : Nat
  rssi : Int
  services : List Nat
deriving DecidableEq

/-- The fixed target service identifier (serviceUUID, ...0ffe). -/
def serviceUUID : Nat := 0xffe

/-- device.isAdvertisingService(serviceUUID). -/
def isAdvertisingService (d : BLEAdvertisedDevice) (u : Nat) : Bool :=
  d.services.contains u

/-- Outcome of pRemoteCharacteristic->readValue(): an exception, or the
returned byte string (possibly empty). -/
inductive ReadOutcome where
  | exn
  | bytes (bs : List Nat)
deriving DecidableEq

/-- Outcome of pRemoteCharacteristic->writeValue(..., true): an exception,
or the boolean the call returned. -/
inductive WriteOutcome where
  | exn
  | ret (b : Bool)
deriving DecidableEq

/-- Transport environment for one connect attempt inside connectToServer. -/
structure ConnEnv where
  scanOk : Bool
  scanResults : List BLEAdvertisedDevice
  connectOk : Bool
  serviceFound : Bool
  charFound : Bool
deriving DecidableEq

/-- Transport environment for the characteristic read/write primitives. -/
structure PrimEnv where
  canWrite : Bool
  writeOutcome : WriteOutcome
  canRead : Bool
  readOutcome : ReadOutcome
deriving DecidableEq

/-- The mutable state of ble_client.cpp, together with the UI fields it
notifies and ghost instrumentation: the list of update_ble_status calls
(most recent first) and the number of scans started. -/
structure BleState where
  connected : Bool
  hasChar : Bool
  myDevice : Option BLEAdvertisedDevice
  clientExists : Bool
  target_weight : Int
  displayed : Int
  checkmark : Bool
  status : BleStatus
  events : List BleStatus
  scanCount : Nat
  mutexHeld : Bool
  writeTaskActive : Bool
  initialReadActive : Bool
  pendingWrite : Option Int
deriving DecidableEq

/-- update_ble_status(s): records the call and sets the current status. -/
def update_ble_status (s : BleStatus) (st : BleState) : BleState :=
  { st with status := s, events := s :: st.events }

/-- Reinterpretation of a byte as a signed 8-bit integer, as in the cast
(int8_t)value[0] of internal_read_weight. -/
def toInt8 (b : Nat) : Int :=
  if b % 256 < 128 then ((b % 256 : Nat) : Int) else ((b % 256 : Nat) : Int) - 256

/-- connectToServer (ble_client.cpp:80).  Returns true at once if already
connected; otherwise reports Connecting, scans, stores the first scan result
advertising serviceUUID, connects to it, resolves the service and the
characteristic, and reports Connected; every failure reports Failed and
returns false. -/
def connectToServer (env : ConnEnv) (st : BleState) : Bool × BleState :=
  if st.connected then
    (true, st)
  else
    let st := update_ble_status .connecting st
    let st := { st with scanCount := st.scanCount + 1 }
    if env.scanOk = false then
      (false, update_ble_status .failed st)
    else
      let st := { st with myDevice := none }
      match env.scanResults.find? (fun d => isAdvertisingService d serviceUUID) with
      | none => (false, update_ble_status .failed st)
      | some d =>
        let st := { st with myDevice := some d, clientExists := true }
        if env.connectOk = false then
          (false, update_ble_status .failed st)
        else
          let st := update_ble_status .connected { st with connected := true }
          if env.serviceFound = false then
            let st := update_ble_status .disconnected
              { st with connected := false, hasChar := false }
            (false, update_ble_status .failed st)
          else if env.charFound = false then
            let st := update_ble_status .disconnected
              { st with connected := false, hasChar := false }
            (false, update_ble_status .failed st)
          else
            let st := { st with hasChar := true }
            (true, update_ble_status .connected st)

/-- disconnectFromServer (ble_client.cpp:191).  If a client exists and is
connected the transport disconnect fires the onDisconnect callback; in every
case the local state is then forced to disconnected, the characteristic
handle cleared, and Disconnected is reported to the UI. -/
def disconnectFromServer (st : BleState) : BleState :=
  let st :=
    if st.clientExists && st.connected then
      update_ble_status .disconnected { st with connected := false, hasChar := false }
    else
      st
  update_ble_status .disconnected { st with connected := false, hasChar := false }

/-- internal_read_weight (ble_client.cpp:205): the first payload byte as a
signed 8-bit integer, or the sentinel -1 on any failure (not connected, no
characteristic, cannot read, exception, empty payload). -/
def internal_read_weight (io : PrimEnv) (st : BleState) : Int :=
  if st.connected && st.hasChar && io.canRead then
    match io.readOutcome with
    | .exn => -1
    | .bytes [] => -1
    | .bytes (b :: _) => toInt8 b
  else
    -1

/-- internal_write_weight (ble_client.cpp:229): true iff connected with a
writable characteristic and the acknowledged write returned true. -/
def internal_write_weight (io : PrimEnv) (_weight : Int) (st : BleState) : Bool :=
  if st.connected && st.hasChar && io.canWrite then
    match io.writeOutcome with
    | .exn => false
    | .ret b => b
  else
    false

/-- The spec-level read primitive readValue() -> value | Error(NoData),
defined over the same transport environment as internal_read_weight: some
value exactly when the read genuinely succeeds, none on exception, empty
payload or unreadable characteristic. -/
def readPrim (io : PrimEnv) : Option Int :=
  if io.canRead then
    match io.readOutcome with
    | .exn => none
    | .bytes [] => none
    | .bytes (b :: _) => some (toInt8 b)
  else
    none

/-- The spec-level write primitive writeValue(v) -> bool over the same
transport environment as internal_write_weight. -/
def writePrim (io : PrimEnv) : Bool :=
  if io.canWrite then
    match io.writeOutcome with
    | .exn => false
    | .ret b => b
  else
    false

/-- Environment for one run of write_verify_task: the mutex acquisition
outcome, the connect environment, and the primitive environment. -/
structure WriteEnv where
  mutexOk : Bool
  conn : ConnEnv
  io : PrimEnv
deriving DecidableEq

/-- write_verify_task (ble_client.cpp:306): acquire the mutex, connect,
write, read back, compare; on match commit target_weight, update the
display and show the checkmark; otherwise hide the checkmark and report
Failed; unconditionally disconnect and release the mutex; finally clear the
task handle and report Disconnected iff the whole operation succeeded. -/
def write_verify_task (env : WriteEnv) (v : Int) (st0 : BleState) : BleState :=
  let result :=
    if env.mutexOk then
      let st := { st0 with mutexHeld := true }
      let c := connectToServer env.conn st
      let st := c.2
      if c.1 then
        let inner :=
          if internal_write_weight env.io v st then
            let rv := internal_read_weight env.io st
            if rv = v then
              ({ st with target_weight := v, displayed := v, checkmark := true }, true)
            else
              (update_ble_status .failed { st with checkmark := false }, false)
          else
            (update_ble_status .failed { st with checkmark := false }, false)
        let st := disconnectFromServer inner.1
        ({ st with mutexHeld := false }, inner.2)
      else
        ({ st with checkmark := false, mutexHeld := false }, false)
    else
      (update_ble_status .failed { st0 with checkmark := false }, false)
  let st := { result.1 with writeTaskActive := false }
  if result.2 then update_ble_status .disconnected st else st

/-- Environment for one iteration of the initial_read_task retry loop. -/
structure InitEnv where
  mutexOk : Bool
  conn : ConnEnv
  io : PrimEnv
deriving DecidableEq

/-- One iteration of the initial_read_task loop body (ble_client.cpp:261).
Returns the new state and whether the loop breaks (read succeeded). -/
def initial_read_attempt (env : InitEnv) (st : BleState) : BleState × Bool :=
  if env.mutexOk then
    let st := { st with mutexHeld := true }
    let c := connectToServer env.conn st
    let st := c.2
    if c.1 then
      let w := internal_read_weight env.io st
      let st := disconnectFromServer st
      if w ≠ -1 then
        let st := { st with target_weight := w, displayed := w, checkmark := true }
        let st := update_ble_status .disconnected st
        ({ st with mutexHeld := false }, true)
      else
        let st := update_ble_status .failed st
        ({ st with mutexHeld := false }, false)
    else
      ({ st with mutexHeld := false }, false)
  else
    (update_ble_status .failed st, false)

/-- The initial_read_task retry loop (ble_client.cpp:257), driven by a list
of per-attempt environments, one entry per loop iteration.  On success the
task clears its handle and deletes itself; when the environment list is
exhausted the task is still looping. -/
def initial_read_loop (envs : List InitEnv) (st : BleState) : BleState :=
  match envs with
  | [] => st
  | e :: es =>
    let r := initial_read_attempt e st
    if r.2 then { r.1 with initialReadActive := false }
    else initial_read_loop es r.1

/-- write_target_weight (ble_client.cpp:400): return at once if a write
task or the initial read task is in flight; otherwise store the weight in
the task buffer, hide the checkmark, report Connecting, and spawn the write
task (taskCreateOk models the xTaskCreate outcome). -/
def write_target_weight (taskCreateOk : Bool) (weight : Int) (st : BleState) : BleState :=
  if st.writeTaskActive || st.initialReadActive then
    st
  else
    let st := { st with pendingWrite := some weight }
    let st := { st with checkmark := false }
    let st := update_ble_status .connecting st
    if taskCreateOk then
      { st with writeTaskActive := true }
    else
      update_ble_status .failed { st with checkmark := false }

/-- ble_perform_initial_read (ble_client.cpp:378): spawn the initial read
task unless one is already running.  Note the guard checks only the initial
read task handle, not the write task handle. -/
def ble_perform_initial_read (taskCreateOk : Bool) (st : BleState) : BleState :=
  if st.initialReadActive then
    st
  else if taskCreateOk then
    { st with initialReadActive := true }
  else
    update_ble_status .failed st

/-- Two's-complement wrap-around into the int8_t range, as performed by the
unguarded increment/decrement of the int8_t global target_weight. -/
def int8wrap (n : Int) : Int := (n + 128) % 256 - 128

/-- Which screen is active when a knob event arrives. -/
inductive Screen where
  | shotStopper
  | ha
deriving DecidableEq

/-- knob_left_cb on the Shot Stopper screen: target_weight (an int8_t)
is decremented with wrap-around, the checkmark hidden, and the display
updated with the new, unclamped value; on other screens the weight is
untouched. -/
def knob_left_cb (screen : Screen) (st : BleState) : BleState :=
  if screen = .shotStopper then
    let st := { st with target_weight := int8wrap (st.target_weight - 1) }
    let st := { st with checkmark := false }
    { st with displayed := st.target_weight }
  else
    st

/-- knob_right_cb on the Shot Stopper screen: target_weight is incremented
with wrap-around, the checkmark hidden, and the display updated with the
new, unclamped value. -/
def knob_right_cb (screen : Screen) (st : BleState) : BleState :=
  if screen = .shotStopper then
    let st := { st with target_weight := int8wrap (st.target_weight + 1) }
    let st := { st with checkmark := false }
    { st with displayed := st.target_weight }
  else
    st

/-- ble_write_timer_callback: after the one-second debounce the current
(unclamped) target_weight is handed to write_target_weight. -/
def ble_write_timer_callback (taskCreateOk : Bool) (st : BleState) : BleState :=
  write_target_weight taskCreateOk st.target_weight st

/-- Process state after ble_client_init: disconnected, default weight 36,
no tasks running, one initial Disconnected status report. -/
def initState : BleState :=
  { connected := false, hasChar := false, myDevice := none, clientExists := false,
    target_weight := 36, displayed := 36, checkmark := false,
    status := .disconnected, events := [.disconnected], scanCount := 0,
    mutexHeld := false, writeTaskActive := false, initialReadActive := false,
    pendingWrite := none }

/-- A connect environment in which connectToServer fully succeeds. -/
def goodConn (e : ConnEnv) : Bool :=
  e.scanOk &&
    (e.scanResults.find? (fun d => isAdvertisingService d serviceUUID)).isSome &&
    e.connectOk && e.serviceFound && e.charFound

/-- The state connectToServer leaves behind on a fully successful attempt
started from a disconnected state. -/
def postConn (e : ConnEnv) (st : BleState) : BleState :=
  { st with
    connected := true, hasChar := true, clientExists := true,
    myDevice := e.scanResults.find? (fun d => isAdvertisingService d serviceUUID),
    status := .connected,
    events := .connected :: .connected :: .connecting :: st.events,
    scanCount := st.scanCount + 1 }

/-- On a fully successful environment, connectToServer started from a
disconnected state returns true and leaves exactly the postConn state. -/
theorem connect_success (e : ConnEnv) (st : BleState)
    (hc : st.connected = false) (hg : goodConn e = true) :
    connectToServer e st = (true, postConn e st) := by
  unfold goodConn at hg
  simp only [Bool.and_eq_true] at hg
  obtain ⟨⟨⟨⟨h1, h2⟩, h3⟩, h4⟩, h5⟩ := hg
  obtain ⟨d, hd⟩ := Option.isSome_iff_exists.mp h2
  unfold connectToServer postConn update_ble_status
  simp only [hc, h1, h3, h4, h5, hd, Bool.false_eq_true, if_false, if_true,
    Bool.true_eq_false, ite_false, ite_true]

/-- When connected with a characteristic, internal_read_weight is the
spec-level read primitive with the error collapsed to the -1 sentinel. -/
theorem internal_read_conn (io : PrimEnv) (st : BleState)
    (hc : st.connected = true) (hch : st.hasChar = true) :
    internal_read_weight io st = (readPrim io).getD (-1) := by
  unfold internal_read_weight readPrim
  rw [hc, hch]
  by_cases hr : io.canRead
  · cases hio : io.readOutcome with
    | exn => simp [hr, hio]
    | bytes bs => cases bs <;> simp [hr, hio]
  · simp [hr]

/-- When connected with a characteristic, internal_write_weight is the
spec-level write primitive. -/
theorem internal_write_conn (io : PrimEnv) (w : Int) (st : BleState)
    (hc : st.connected = true) (hch : st.hasChar = true) :
    internal_write_weight io w st = writePrim io := by
  unfold internal_write_weight writePrim
  rw [hc, hch]
  by_cases hw : io.canWrite
  · cases io.writeOutcome <;> simp [hw]
  · simp [hw]

/-- A device advertising the target service. -/
def devA : BLEAdvertisedDevice := { addr := 1, rssi := -70, services := [serviceUUID] }

/-- A connect environment in which every step succeeds. -/
def connAllOk : ConnEnv :=
  { scanOk := true, scanResults := [devA], connectOk := true,
    serviceFound := true, charFound := true }

/-- Primitive environment: write acknowledged, read-back raises. -/
def ioReadExn : PrimEnv :=
  { canWrite := true, writeOutcome := .ret true, canRead := true, readOutcome := .exn }

/-- Write environment with a failing read-back. -/
def wenvReadExn : WriteEnv := { mutexOk := true, conn := connAllOk, io := ioReadExn }

/-- Primitive environment: write acknowledged, read-back returns byte 45. -/
def ioRead45 : PrimEnv :=
  { canWrite := true, writeOutcome := .ret true, canRead := true, readOutcome := .bytes [45] }

/-- Write environment whose read-back returns byte 45. -/
def wenvRead45 : WriteEnv := { mutexOk := true, conn := connAllOk, io := ioRead45 }

/-- C1 (amended): for a WriteVerify run that acquires the mutex and connects,
if the write succeeds and the read-back returns v then target_weight becomes
v and the checkmark is shown; on a read-back mismatch, on a read failure
with v distinct from the -1 sentinel, or on a write failure, target_weight
is unchanged and the checkmark is hidden.  (When v = -1 a failed read-back
is indistinguishable from reading -1, see the counterexample.) -/
theorem write_verify_round_trip (env : WriteEnv) (v : Int) (st : BleState)
    (hc : st.connected = false) (hm : env.mutexOk = true)
    (hg : goodConn env.conn = true) :
    (writePrim env.io = true → readPrim env.io = some v →
        (write_verify_task env v st).target_weight = v ∧
        (write_verify_task env v st).checkmark = true) ∧
    (writePrim env.io = true → ∀ w, readPrim env.io = some w → w ≠ v →
        (write_verify_task env v st).target_weight = st.target_weight ∧
        (write_verify_task env v st).checkmark = false) ∧
    (writePrim env.io = true → readPrim env.io = none → v ≠ -1 →
        (write_verify_task env v st).target_weight = st.target_weight ∧
        (write_verify_task env v st).checkmark = false) ∧
    (writePrim env.io = false →
        (write_verify_task env v st).target_weight = st.target_weight ∧
        (write_verify_task env v st).checkmark = false) := by
  have hconn : connectToServer env.conn { st with mutexHeld := true }
      = (true, postConn env.conn { st with mutexHeld := true }) :=
    connect_success _ _ hc hg
  refine ⟨?_, ?_, ?_, ?_⟩
  · intro hw hr
    simp [write_verify_task, hm, hconn, internal_write_conn, internal_read_conn,
      postConn, update_ble_status, disconnectFromServer, hw, hr]
  · intro hw w hr hwv
    simp only [write_verify_task, hm, if_true, hconn]
    simp [internal_write_conn, internal_read_conn, postConn, update_ble_status,
      disconnectFromServer, hw, hr, hwv]
  · intro hw hr hv
    have hv2 : ¬((-1 : Int) = v) := fun h => hv h.symm
    simp [write_verify_task, hm, hconn, internal_write_conn, internal_read_conn,
      postConn, update_ble_status, disconnectFromServer, hw, hr, hv2]
  · intro hw
    simp [write_verify_task, hm, hconn, internal_write_conn, internal_read_conn,
      postConn, update_ble_status, disconnectFromServer, hw]

/-- C1 counterexample: with v = -1 and a read-back that fails (exception),
the code commits -1 as a verified success, while the claim requires the
target to stay unchanged with the verified indicator false. -/
theorem write_verify_round_trip_ce :
    writePrim ioReadExn = true ∧
    readPrim ioReadExn = none ∧
    initState.target_weight = 36 ∧
    (write_verify_task wenvReadExn (-1) initState).target_weight = -1 ∧
    (write_verify_task wenvReadExn (-1) initState).checkmark = true := by decide

/-- C1 witness: concrete successful round trip committing 45. -/
theorem write_verify_round_trip_witness :
    initState.connected = false ∧ wenvRead45.mutexOk = true ∧
    goodConn wenvRead45.conn = true ∧ writePrim wenvRead45.io = true ∧
    readPrim wenvRead45.io = some 45 ∧
    ((write_verify_task wenvRead45 45 initState).target_weight = 45 ∧
      (write_verify_task wenvRead45 45 initState).checkmark = true) :=
  ⟨rfl, rfl, by decide, by decide, by decide,
    (write_verify_round_trip wenvRead45 45 initState rfl rfl (by decide)).1
      (by decide) (by decide)⟩

/-- Primitive environment: write acknowledged, read-back returns byte 48. -/
def c2io : PrimEnv :=
  { canWrite := true, writeOutcome := .ret true, canRead := true, readOutcome := .bytes [48] }

/-- Write environment for the spec scenario write(50) with read-back 48. -/
def c2env : WriteEnv := { mutexOk := true, conn := connAllOk, io := c2io }

/-- C2: evaluation of the code at the spec scenario write(50), read-back 48.
The task emits Failed, but the unconditional disconnectFromServer then emits
Disconnected twice (onDisconnect callback and the explicit grey reset), so
after disconnect and mutex release the final status is Disconnected, not the
Failed the claim and the task's own closing comment require. -/
theorem write_verify_failed_status :
    toInt8 48 = 48 ∧
    (write_verify_task c2env 50 initState).target_weight = 36 ∧
    (write_verify_task c2env 50 initState).checkmark = false ∧
    (write_verify_task c2env 50 initState).mutexHeld = false ∧
    BleStatus.failed ∈ (write_verify_task c2env 50 initState).events ∧
    (write_verify_task c2env 50 initState).events.head? = some BleStatus.disconnected ∧
    (write_verify_task c2env 50 initState).status = BleStatus.disconnected ∧
    (write_verify_task c2env 50 initState).status ≠ BleStatus.failed := by decide

/-- C3 counterexample: from the boot state, spawn a write task, then call
ble_perform_initial_read; its guard checks only the initial read handle, so
both an InitialRead and a WriteVerify end up in flight at once, violating
the at-most-one-operation invariant as stated. -/
theorem request_exclusion_ce :
    (ble_perform_initial_read true (write_target_weight true 45 initState)).writeTaskActive
        = true ∧
    (ble_perform_initial_read true (write_target_weight true 45 initState)).initialReadActive
        = true := by decide

/-- C3 (amended): a requestWrite issued while either task is in flight is
rejected outright with no state change (in particular nothing is queued),
and a repeated requestInitialRead while one is running is a no-op; hence at
most one instance of each protocol is in flight, though an InitialRead can
be spawned alongside a running WriteVerify. -/
theorem request_exclusion (v : Int) (ok : Bool) (st : BleState) :
    (st.writeTaskActive = true ∨ st.initialReadActive = true →
      write_target_weight ok v st = st) ∧
    (st.initialReadActive = true → ble_perform_initial_read ok st = st) := by
  constructor
  · intro h
    unfold write_target_weight
    rcases h with h | h <;> simp [h]
  · intro h
    unfold ble_perform_initial_read
    simp [h]

/-- C3 witness: concrete busy states on which both rejection branches fire. -/
theorem request_exclusion_witness :
    ({ initState with writeTaskActive := true } : BleState).writeTaskActive = true ∧
    write_target_weight true 45 { initState with writeTaskActive := true }
      = { initState with writeTaskActive := true } ∧
    ble_perform_initial_read true { initState with initialReadActive := true }
      = { initState with initialReadActive := true } :=
  ⟨rfl,
    (request_exclusion 45 true { initState with writeTaskActive := true }).1 (Or.inl rfl),
    (request_exclusion 45 true { initState with initialReadActive := true }).2 rfl⟩

/-- A state with a write task in flight, the checkmark shown and a quiet
event log, used to observe what a rejected requestWrite does. -/
def c6busy : BleState :=
  { initState with writeTaskActive := true, checkmark := true, events := [] }

/-- C6 counterexample: a requestWrite arriving while a write task is in
flight returns with the state untouched: no status update is issued, the
checkmark stays shown, nothing is queued.  The rejection is a silent drop,
not the UI-visible rejection the claim describes. -/
theorem rejected_write_silent_ce :
    c6busy.writeTaskActive = true ∧
    c6busy.checkmark = true ∧
    write_target_weight true 50 c6busy = c6busy := by decide

/-- C6 (amended): every requestWrite call that arrives while another
operation is in flight is rejected outright and not queued, but the
rejection is silent: the call makes no status report, does not touch the
verified indicator, and leaves the whole state unchanged. -/
theorem rejected_write_silent (ok : Bool) (v : Int) (st : BleState)
    (h : st.writeTaskActive = true ∨ st.initialReadActive = true) :
    write_target_weight ok v st = st := by
  unfold write_target_weight
  rcases h with h | h <;> simp [h]

/-- C6 witness: the amended rejection at a concrete in-flight state. -/
theorem rejected_write_silent_witness :
    (({ initState with initialReadActive := true, checkmark := true } : BleState).initialReadActive
        = true) ∧
    write_target_weight false 99 { initState with initialReadActive := true, checkmark := true }
      = { initState with initialReadActive := true, checkmark := true } :=
  ⟨rfl, rejected_write_silent false 99 _ (Or.inr rfl)⟩

/-- An already-disconnected state whose last report was Failed, with an
empty event log to observe emissions. -/
def c5st : BleState := { initState with status := BleStatus.failed, events := [] }

/-- C5 counterexample: disconnectFromServer called while already
disconnected still issues an update_ble_status(Disconnected) call, changing
the status the caller had set (Failed) to Disconnected; the claim says no
status transition is emitted in this case. -/
theorem disconnect_when_disconnected_ce :
    c5st.connected = false ∧
    c5st.status = BleStatus.failed ∧
    (disconnectFromServer c5st).status = BleStatus.disconnected ∧
    (disconnectFromServer c5st).events = [BleStatus.disconnected] := by decide

/-- C5 (amended): disconnectFromServer on an already-disconnected state does
not error and performs no transport disconnect, but it still clears the
characteristic handle and emits exactly one Disconnected status report;
everything else is unchanged, so its status is left as the caller set it
only when the caller had set Disconnected. -/
theorem disconnect_when_disconnected (st : BleState) (h : st.connected = false) :
    disconnectFromServer st
      = { st with
          hasChar := false, status := BleStatus.disconnected,
          events := BleStatus.disconnected :: st.events } := by
  unfold disconnectFromServer update_ble_status
  simp [h]

/-- C5 witness: the amended characterisation at the concrete state c5st. -/
theorem disconnect_when_disconnected_witness :
    c5st.connected = false ∧
    disconnectFromServer c5st
      = { c5st with
          hasChar := false, status := BleStatus.disconnected,
          events := [BleStatus.disconnected] } :=
  ⟨rfl, disconnect_when_disconnected c5st rfl⟩

/-- C7: under a started scan from a disconnected state, the device stored
for connection is exactly the first scan result advertising serviceUUID
(List.find? on the results in order, ignoring rssi), and when no result
advertises it the call reports Failed and returns false. -/
theorem connect_selects_first (e : ConnEnv) (st : BleState)
    (hc : st.connected = false) (hs : e.scanOk = true) :
    ((connectToServer e st).2.myDevice
        = e.scanResults.find? (fun d => isAdvertisingService d serviceUUID)) ∧
    (e.scanResults.find? (fun d => isAdvertisingService d serviceUUID) = none →
      (connectToServer e st).1 = false ∧
      (connectToServer e st).2.status = BleStatus.failed) := by
  unfold connectToServer
  cases hfind : e.scanResults.find? (fun d => isAdvertisingService d serviceUUID) with
  | none =>
    simp [hc, hs, hfind, update_ble_status]
  | some d =>
    by_cases h3 : e.connectOk
    · by_cases h4 : e.serviceFound
      · by_cases h5 : e.charFound
        · simp [hc, hs, hfind, h3, h4, h5, update_ble_status]
        · simp [hc, hs, hfind, h3, h4, h5, update_ble_status]
      · simp [hc, hs, hfind, h3, h4, update_ble_status]
    · simp [hc, hs, hfind, h3, update_ble_status]

/-- A device not advertising the target service. -/
def devOther : BLEAdvertisedDevice := { addr := 9, rssi := -10, services := [0x1] }

/-- A matching device with weak signal, listed before a stronger one. -/
def devWeak : BLEAdvertisedDevice := { addr := 2, rssi := -90, services := [serviceUUID] }

/-- A matching device with strong signal, listed last. -/
def devStrong : BLEAdvertisedDevice := { addr := 3, rssi := -20, services := [serviceUUID] }

/-- Scan environment listing a non-matching device, then a weak match, then
a strong match. -/
def c7env : ConnEnv :=
  { scanOk := true, scanResults := [devOther, devWeak, devStrong], connectOk := true,
    serviceFound := true, charFound := true }

/-- C7 witness: among [devOther, devWeak, devStrong] the stored device is
devWeak, the first advertiser of the service, despite devStrong having the
better signal. -/
theorem connect_selects_first_witness :
    initState.connected = false ∧ c7env.scanOk = true ∧
    c7env.scanResults.find? (fun d => isAdvertisingService d serviceUUID) = some devWeak ∧
    devWeak.rssi < devStrong.rssi ∧
    (connectToServer c7env initState).2.myDevice
      = c7env.scanResults.find? (fun d => isAdvertisingService d serviceUUID) :=
  ⟨rfl, rfl, by decide, by decide,
    (connect_selects_first c7env initState rfl rfl).1⟩

/-- C8: connectToServer called with the connection flag already set is a
pure no-op returning true: the state (characteristic handle, stored device,
scan counter, event log, everything) is returned unchanged. -/
theorem connect_noop_when_connected (e : ConnEnv) (st : BleState)
    (h : st.connected = true) :
    connectToServer e st = (true, st) := by
  unfold connectToServer
  simp [h]

/-- An established-session state. -/
def c8st : BleState :=
  { initState with
    connected := true, hasChar := true, clientExists := true,
    myDevice := some devA, status := BleStatus.connected }

/-- C8 witness: the no-op at a concrete connected state. -/
theorem connect_noop_when_connected_witness :
    c8st.connected = true ∧ connectToServer connAllOk c8st = (true, c8st) :=
  ⟨rfl, connect_noop_when_connected connAllOk c8st rfl⟩

/-- Fold of initial read attempts, ignoring the break flag. -/
def failRun (envs : List InitEnv) (st : BleState) : BleState :=
  match envs with
  | [] => st
  | e :: es => failRun es (initial_read_attempt e st).1

/-- Every attempt along the environment list fails. -/
def allFail (envs : List InitEnv) (st : BleState) : Bool :=
  match envs with
  | [] => true
  | e :: es =>
    !(initial_read_attempt e st).2 && allFail es (initial_read_attempt e st).1

/-- Unfolding equation of initial_read_loop on a cons cell. -/
theorem initial_read_loop_cons (e : InitEnv) (es : List InitEnv) (st : BleState) :
    initial_read_loop (e :: es) st
      = if (initial_read_attempt e st).2 then
          { (initial_read_attempt e st).1 with initialReadActive := false }
        else initial_read_loop es (initial_read_attempt e st).1 := rfl

/-- A run of failing attempts just folds the attempt body over the list. -/
theorem loop_skip_failures (envs : List InitEnv) (st : BleState)
    (h : allFail envs st = true) (rest : List InitEnv) :
    initial_read_loop (envs ++ rest) st = initial_read_loop rest (failRun envs st) := by
  induction envs generalizing st with
  | nil => rfl
  | cons e es ih =>
    unfold allFail at h
    simp only [Bool.and_eq_true, Bool.not_eq_true'] at h
    obtain ⟨h1, h2⟩ := h
    rw [List.cons_append, initial_read_loop_cons, h1]
    simp only [Bool.false_eq_true, if_false]
    exact ih _ h2

/-- A successful attempt leaves the committed read value on display, the
checkmark shown, status Disconnected and the mutex released. -/
theorem attempt_success_state (e : InitEnv) (st : BleState)
    (h : (initial_read_attempt e st).2 = true) :
    (initial_read_attempt e st).1.checkmark = true ∧
    (initial_read_attempt e st).1.status = BleStatus.disconnected ∧
    (initial_read_attempt e st).1.mutexHeld = false ∧
    (initial_read_attempt e st).1.target_weight
        = internal_read_weight e.io (connectToServer e.conn { st with mutexHeld := true }).2 ∧
    (initial_read_attempt e st).1.displayed
        = (initial_read_attempt e st).1.target_weight ∧
    (initial_read_attempt e st).1.target_weight ≠ -1 := by
  by_cases hm : e.mutexOk
  · by_cases hc : (connectToServer e.conn { st with mutexHeld := true }).1
    · by_cases hw : internal_read_weight e.io
          (connectToServer e.conn { st with mutexHeld := true }).2 = -1
      · exfalso
        simp [initial_read_attempt, hm, hc, hw] at h
      · refine ⟨?_, ?_, ?_, ?_, ?_, ?_⟩ <;>
          simp [initial_read_attempt, hm, hc, hw, update_ble_status]
    · exfalso
      simp [initial_read_attempt, hm, hc] at h
  · exfalso
    simp [initial_read_attempt, hm] at h

/-- C4: after any run of failing attempts, the first successful attempt
(connect succeeded and the read returned a valid, non-sentinel value)
terminates the retry loop: the final state is exactly the successful
attempt's state with the task handle cleared — the committed target equals
the value read, displayed, with the checkmark shown, status Disconnected
and the mutex released — and the loop result is independent of whatever
environments follow, so no further scan or connect attempt is consumed. -/
theorem initial_read_stops_on_success (es₁ : List InitEnv) (e : InitEnv)
    (es₂ : List InitEnv) (st : BleState)
    (hfail : allFail es₁ st = true)
    (hsucc : (initial_read_attempt e (failRun es₁ st)).2 = true) :
    (initial_read_loop (es₁ ++ e :: es₂) st
        = { (initial_read_attempt e (failRun es₁ st)).1 with initialReadActive := false }) ∧
    (initial_read_loop (es₁ ++ e :: es₂) st = initial_read_loop (es₁ ++ [e]) st) ∧
    (initial_read_loop (es₁ ++ e :: es₂) st).checkmark = true ∧
    (initial_read_loop (es₁ ++ e :: es₂) st).status = BleStatus.disconnected ∧
    (initial_read_loop (es₁ ++ e :: es₂) st).mutexHeld = false ∧
    (initial_read_loop (es₁ ++ e :: es₂) st).initialReadActive = false ∧
    (initial_read_loop (es₁ ++ e :: es₂) st).target_weight
        = internal_read_weight e.io
            (connectToServer e.conn { failRun es₁ st with mutexHeld := true }).2 ∧
    (initial_read_loop (es₁ ++ e :: es₂) st).target_weight ≠ -1 ∧
    (initial_read_loop (es₁ ++ e :: es₂) st).displayed
        = (initial_read_loop (es₁ ++ e :: es₂) st).target_weight := by
  have key : ∀ rest : List InitEnv,
      initial_read_loop (es₁ ++ e :: rest) st
        = { (initial_read_attempt e (failRun es₁ st)).1 with initialReadActive := false } := by
    intro rest
    rw [loop_skip_failures es₁ st hfail (e :: rest), initial_read_loop_cons, hsucc]
    simp
  obtain ⟨a1, a2, a3, a4, a5, a6⟩ := attempt_success_state e (failRun es₁ st) hsucc
  refine ⟨key es₂, (key es₂).trans (key []).symm, ?_, ?_, ?_, ?_, ?_, ?_, ?_⟩
  · rw [key es₂]; exact a1
  · rw [key es₂]; exact a2
  · rw [key es₂]; exact a3
  · rw [key es₂]
  · rw [key es₂]; exact a4
  · rw [key es₂]; exact a6
  · rw [key es₂]; exact a5

/-- An attempt environment whose mutex acquisition times out. -/
def initFailEnv : InitEnv := { mutexOk := false, conn := connAllOk, io := ioReadExn }

/-- An attempt environment that connects and reads byte 40. -/
def initGoodEnv : InitEnv :=
  { mutexOk := true, conn := connAllOk,
    io := { canWrite := true, writeOutcome := .ret true, canRead := true,
            readOutcome := .bytes [40] } }

/-- C4 witness: one failing attempt, then a successful read of byte 40; the
loop commits 40 and ignores the trailing environment. -/
theorem initial_read_stops_on_success_witness :
    allFail [initFailEnv] initState = true ∧
    (initial_read_attempt initGoodEnv (failRun [initFailEnv] initState)).2 = true ∧
    (initial_read_loop [initFailEnv, initGoodEnv, initFailEnv] initState).target_weight = 40 ∧
    (initial_read_loop [initFailEnv, initGoodEnv, initFailEnv] initState).checkmark = true ∧
    (initial_read_loop [initFailEnv, initGoodEnv, initFailEnv] initState).status
        = BleStatus.disconnected ∧
    initial_read_loop [initFailEnv, initGoodEnv, initFailEnv] initState
      = initial_read_loop [initFailEnv, initGoodEnv] initState :=
  ⟨by decide, by decide, by decide, by decide, by decide,
    ((initial_read_stops_on_success [initFailEnv] initGoodEnv [initFailEnv] initState
        (by decide) (by decide)).2).1⟩

/-- A connected session state with a resolved characteristic. -/
def stConn : BleState :=
  { initState with connected := true, hasChar := true, clientExists := true }

/-- Primitive environment reading the genuine byte 0xFF. -/
def io255 : PrimEnv :=
  { canWrite := true, writeOutcome := .ret true, canRead := true, readOutcome := .bytes [255] }

/-- Initial-read attempt environment reading the genuine byte 0xFF. -/
def init255Env : InitEnv := { mutexOk := true, conn := connAllOk, io := io255 }

/-- C9: the read primitive's -1 error sentinel coincides with the payload
byte 0xFF read as a signed 8-bit value.  Consequently a WriteVerify of -1
whose read-back fails (exception) is committed as a verified success, and
an InitialRead attempt that genuinely reads 0xFF is treated as a failure
(status Failed, no commit) and the loop retries with the next attempt. -/
theorem read_sentinel_conflation :
    toInt8 255 = -1 ∧
    readPrim ioReadExn = none ∧
    internal_read_weight ioReadExn stConn = -1 ∧
    readPrim io255 = some (-1) ∧
    internal_read_weight io255 stConn = -1 ∧
    writePrim ioReadExn = true ∧
    ((write_verify_task wenvReadExn (-1) initState).target_weight = -1 ∧
      (write_verify_task wenvReadExn (-1) initState).checkmark = true ∧
      (write_verify_task wenvReadExn (-1) initState).status = BleStatus.disconnected) ∧
    ((initial_read_attempt init255Env initState).2 = false ∧
      (initial_read_attempt init255Env initState).1.status = BleStatus.failed ∧
      (initial_read_attempt init255Env initState).1.target_weight = 36 ∧
      (initial_read_attempt init255Env initState).1.checkmark = false ∧
      initial_read_loop [init255Env, init255Env] initState
        = (initial_read_attempt init255Env
            (initial_read_attempt init255Env initState).1).1) := by decide

/-- C10: the knob handlers on the Shot Stopper screen mutate the int8_t
target weight with unguarded increment/decrement, wrapping modulo 2^8
(127 increments to -128, 0 decrements to -1), and the wrapped value is
displayed and handed to write_target_weight without any clamp to 0..127. -/
theorem target_weight_wraps :
    (∀ st : BleState,
        knob_right_cb Screen.shotStopper st
          = { st with
              target_weight := int8wrap (st.target_weight + 1),
              displayed := int8wrap (st.target_weight + 1), checkmark := false }) ∧
    (∀ st : BleState,
        knob_left_cb Screen.shotStopper st
          = { st with
              target_weight := int8wrap (st.target_weight - 1),
              displayed := int8wrap (st.target_weight - 1), checkmark := false }) ∧
    int8wrap (127 + 1) = -128 ∧
    int8wrap (0 - 1) = -1 ∧
    (knob_right_cb Screen.shotStopper
        { initState with target_weight := 127 }).target_weight = -128 ∧
    (knob_right_cb Screen.shotStopper
        { initState with target_weight := 127 }).displayed = -128 ∧
    (knob_left_cb Screen.shotStopper
        { initState with target_weight := 0 }).target_weight = -1 ∧
    (ble_write_timer_callback true
        { initState with target_weight := -128 }).pendingWrite = some (-128) ∧
    (ble_write_timer_callback true
        { initState with target_weight := -128 }).writeTaskActive = true :=
  ⟨fun _ => rfl, fun _ => rfl, by decide, by decide, by decide, by decide,
    by decide, by decide, by decide⟩

end ShotStopper
